import Mathlib

/-!
Verification of pyx509 `x509/pkcs7_models.py` against its specification.

The Python source is shallowly embedded: each class constructor or method that
a claim refers to becomes an executable Lean definition over explicit data.
Python exceptions are modelled with `Option`/`Except` (`none` / `.error` means
the Python code raised), Python `datetime.datetime` becomes `PyDateTime`
together with the range validation its constructor performs, and Python dicts
whose keys are check names become association lists with dict update/get
semantics.
-/

namespace X509

/-- Models Python `s[a:b]` for `0 ≤ a ≤ b` on the byte/char strings used here. -/
def pySlice (s : String) (a b : Nat) : String :=
  String.mk ((s.data.drop a).take (b - a))

/-- Decimal digit value of a character, `none` for a non-digit. -/
def digitVal (c : Char) : Option Nat :=
  if c = '0' then some 0 else if c = '1' then some 1 else if c = '2' then some 2
  else if c = '3' then some 3 else if c = '4' then some 4 else if c = '5' then some 5
  else if c = '6' then some 6 else if c = '7' then some 7 else if c = '8' then some 8
  else if c = '9' then some 9 else none

/-- Value of a nonempty all-digit character list, `none` otherwise. -/
def charsToNat (l : List Char) : Option Nat :=
  match l with
  | [] => none
  | _ => l.foldl (fun acc c =>
      match acc, digitVal c with
      | some a, some d => some (a * 10 + d)
      | _, _ => none) (some 0)

/-- Models Python `int(s)` on the strings reaching it in this module: an
optional sign followed by decimal digits; `none` means `int` raised
`ValueError`. -/
def pyInt (s : String) : Option Int :=
  match s.data with
  | [] => none
  | c :: rest =>
    if c = '-' then (charsToNat rest).map (fun n => -(n : Int))
    else if c = '+' then (charsToNat rest).map (fun n => (n : Int))
    else (charsToNat (c :: rest)).map (fun n => (n : Int))

/-- Python `datetime.datetime` restricted to the fields this module constructs
(microseconds are always 0 in certificate date parsing). -/
structure PyDateTime where
  year : Int
  month : Int
  day : Int
  hour : Int
  minute : Int
  second : Int
deriving DecidableEq

/-- Gregorian leap-year rule used by `datetime` for day-of-month validation. -/
def isLeapYear (y : Int) : Bool :=
  (y % 4 == 0 && y % 100 != 0) || (y % 400 == 0)

/-- Number of days in a month, as `datetime` validates them. -/
def daysInMonth (y m : Int) : Int :=
  if m = 2 then (if isLeapYear y then 29 else 28)
  else if m = 4 ∨ m = 6 ∨ m = 9 ∨ m = 11 then 30
  else 31

/-- Models the `datetime.datetime(year, month, day, hour, minute, second)`
constructor: `none` means it raised `ValueError` (a field out of range). -/
def datetimeNew (y mo d h mi s : Int) : Option PyDateTime :=
  if 1 ≤ y ∧ y ≤ 9999 ∧ 1 ≤ mo ∧ mo ≤ 12 ∧ 1 ≤ d ∧ d ≤ daysInMonth y mo ∧
     0 ≤ h ∧ h ≤ 23 ∧ 0 ≤ mi ∧ mi ≤ 59 ∧ 0 ≤ s ∧ s ≤ 59 then
    some ⟨y, mo, d, h, mi, s⟩
  else
    none

/-- Python `datetime` comparison: lexicographic on the field tuple. -/
def PyDateTime.le (a b : PyDateTime) : Bool :=
  if a.year < b.year then true else if b.year < a.year then false
  else if a.month < b.month then true else if b.month < a.month then false
  else if a.day < b.day then true else if b.day < a.day then false
  else if a.hour < b.hour then true else if b.hour < a.hour then false
  else if a.minute < b.minute then true else if b.minute < a.minute then false
  else decide (a.second ≤ b.second)

/-- Python `a >= b` on datetimes. -/
def PyDateTime.ge (a b : PyDateTime) : Bool :=
  PyDateTime.le b a

/-- `ValidityInterval.parse_date`: fixed-width slicing of a
`YYYYMMDDHHMMSS[Z]` string; the seconds field is wrapped in
`try/except (ValueError, IndexError)` defaulting to 0, then clamped to 59;
the other five fields raise on non-numeric content. -/
def ValidityInterval.parse_date (date : String) : Option PyDateTime := do
  let year ← pyInt (pySlice date 0 4)
  let month ← pyInt (pySlice date 4 6)
  let day ← pyInt (pySlice date 6 8)
  let hour ← pyInt (pySlice date 8 10)
  let minute ← pyInt (pySlice date 10 12)
  let second0 := (pyInt (pySlice date 12 14)).getD 0
  let second := if second0 > 59 then 59 else second0
  datetimeNew year month day hour minute second

/-- The ASN.1 `Time` CHOICE reaching `ValidityInterval._getGeneralizedTime`:
either the `generalTime` variant (already `YYYYMMDDHHMMSSZ`) or the `utcTime`
variant (short two-digit-year `YYMMDDHHMMSSZ`). -/
inductive TimeComponent where
  | generalTime (value : String)
  | utcTime (value : String)
deriving DecidableEq

/-- `ValidityInterval._getGeneralizedTime`: the `generalTime` variant is
returned verbatim; the `utcTime` variant gets `"19"` prefixed when its
two-digit year is ≥ 50 (the Python `shortyear >= 50 and "19" or "20"` idiom)
and `"20"` otherwise; `none` means `int(timeValue[:2])` raised. -/
def ValidityInterval.getGeneralizedTime : TimeComponent → Option String
  | TimeComponent.generalTime v => some v
  | TimeComponent.utcTime v =>
    match pyInt (pySlice v 0 2) with
    | none => none
    | some shortyear => some ((if shortyear ≥ 50 then "19" else "20") ++ v)

/-- `Name._oid2Name`: the fixed OID → short-name table for DN attribute types. -/
def Name.oid2Name : List (String × String) :=
  [("2.5.4.3", "CN"), ("2.5.4.6", "C"), ("2.5.4.7", "L"), ("2.5.4.8", "ST"),
   ("2.5.4.10", "O"), ("2.5.4.11", "OU"), ("2.5.4.45", "X500UID"),
   ("1.2.840.113549.1.9.1", "email"), ("2.5.4.17", "zip"), ("2.5.4.9", "street"),
   ("2.5.4.15", "businessCategory"), ("2.5.4.5", "serialNumber"),
   ("2.5.4.43", "initials"), ("2.5.4.44", "generationQualifier"),
   ("2.5.4.4", "surname"), ("2.5.4.42", "givenName"), ("2.5.4.12", "title"),
   ("2.5.4.46", "dnQualifier"), ("2.5.4.65", "pseudonym"),
   ("0.9.2342.19200300.100.1.25", "DC"), ("1.3.6.1.4.1.5734.1.2", "Apellido1"),
   ("1.3.6.1.4.1.5734.1.3", "Apellido2"), ("1.3.6.1.4.1.5734.1.1", "Nombre"),
   ("1.3.6.1.4.1.5734.1.4", "DNI"), ("0.9.2342.19200300.100.1.1", "Userid")]

/-- `Name._oid2Name.get(type) or type`: map an attribute OID to its short name,
falling back to the numeric OID string (all table values are nonempty, so the
Python `or` is just a `None` fallback). -/
def Name.mapType (t : String) : String :=
  match (Name.oid2Name.find? (fun p => p.1 = t)).map Prod.snd with
  | some n => n
  | none => t

/-- One step of `Name.__init__`'s loop body: append `value` to the list stored
under `typeStr`, creating the entry if the key is new. -/
def Name.addAttr : List (String × List String) → String → String → List (String × List String)
  | [], typeStr, value => [(typeStr, [value])]
  | (k, vs) :: rest, typeStr, value =>
    if k = typeStr then (k, vs ++ [value]) :: rest
    else (k, vs) :: Name.addAttr rest typeStr value

/-- `Name.__init__`: the input is a sequence of RDN sets, each a set of
(type-OID, value) attribute pairs; the nested loops visit the pairs in order,
i.e. fold over the flattened sequence, building the `__attributes` dict
(association list keyed by mapped type name, values in insertion order). -/
def Name.init (name : List (List (String × String))) : List (String × List String) :=
  name.flatten.foldl (fun attrs attr => Name.addAttr attrs (Name.mapType attr.1) attr.2) []

/-- Python string comparison `a <= b` on the character lists: lexicographic by
code point. -/
def pyCharsLe : List Char → List Char → Bool
  | [], _ => true
  | _ :: _, [] => false
  | a :: as, b :: bs =>
    if a.toNat < b.toNat then true
    else if b.toNat < a.toNat then false
    else pyCharsLe as bs

/-- Python `a <= b` on strings. -/
def pyStrLe (a b : String) : Bool :=
  pyCharsLe a.data b.data

/-- Python `sorted` on strings: sort by the code-point lexicographic order. -/
def pySorted (l : List String) : List String :=
  List.insertionSort (fun a b => pyStrLe a b = true) l

/-- `self.__attributes.get(key)` on the association list (keys are unique). -/
def Name.lookupValues : List (String × List String) → String → List String
  | [], _ => []
  | p :: rest, key => if p.1 = key then p.2 else Name.lookupValues rest key

/-- `Name.__str__`: keys sorted lexicographically; within a key the values
sorted lexicographically; pairs rendered `"KEY=value"` and all joined with
`", "`. -/
def Name.toStr (attrs : List (String × List String)) : String :=
  String.intercalate ", "
    ((pySorted (attrs.map Prod.fst)).map (fun key =>
      String.intercalate ", "
        ((pySorted (Name.lookupValues attrs key)).map (fun value => key ++ "=" ++ value))))

/-- The nine named KeyUsage flags, all initialized `False`. -/
structure KeyUsageExt where
  digitalSignature : Bool
  nonRepudiation : Bool
  keyEncipherment : Bool
  dataEncipherment : Bool
  keyAgreement : Bool
  keyCertSign : Bool
  cRLSign : Bool
  encipherOnly : Bool
  decipherOnly : Bool
deriving DecidableEq

/-- The field values before the `try` block of `KeyUsageExt.__init__`. -/
def KeyUsageExt.start : KeyUsageExt :=
  ⟨false, false, false, false, false, false, false, false, false⟩

/-- `KeyUsageExt.__init__`: the bit string is a tuple of 0/1 integers; each
`if bits[i]: flag = True` statement runs in order inside one `try` block, and
the first out-of-range subscript raises `IndexError`, aborting the rest and
leaving the remaining flags at their initial `False`. -/
def KeyUsageExt.init (bits : List Nat) : KeyUsageExt :=
  match bits.get? 0 with
  | none => KeyUsageExt.start
  | some b0 =>
  let r0 := { KeyUsageExt.start with digitalSignature := b0 != 0 }
  match bits.get? 1 with
  | none => r0
  | some b1 =>
  let r1 := { r0 with nonRepudiation := b1 != 0 }
  match bits.get? 2 with
  | none => r1
  | some b2 =>
  let r2 := { r1 with keyEncipherment := b2 != 0 }
  match bits.get? 3 with
  | none => r2
  | some b3 =>
  let r3 := { r2 with dataEncipherment := b3 != 0 }
  match bits.get? 4 with
  | none => r3
  | some b4 =>
  let r4 := { r3 with keyAgreement := b4 != 0 }
  match bits.get? 5 with
  | none => r4
  | some b5 =>
  let r5 := { r4 with keyCertSign := b5 != 0 }
  match bits.get? 6 with
  | none => r5
  | some b6 =>
  let r6 := { r5 with cRLSign := b6 != 0 }
  match bits.get? 7 with
  | none => r6
  | some b7 =>
  let r7 := { r6 with encipherOnly := b7 != 0 }
  match bits.get? 8 with
  | none => r7
  | some b8 => { r7 with decipherOnly := b8 != 0 }

/-- The decoded `Extensions` entry handed to `Extension.__init__`: extension
OID, the `critical` component (an integer, compared against 0), and the raw
`extnValue` octets. -/
structure RawExtension where
  extnID : String
  critical : Nat
  extnValue : List Nat
deriving DecidableEq

/-- Failures of `Extension.__init__`: a propagated `PyAsn1Error` from
decode/parse of the payload, or the `CertificateError` raised for an unknown
critical OID. -/
inductive ExtInitError where
  | pyAsn1Error
  | certificateError (msg : String)
deriving DecidableEq

/-- The constructed `Extension` object: `value` holds either the raw octets or
the typed parse result (of abstract payload type `α`), `ext_type` the registry
tag when the payload was parsed. -/
structure Extension (α : Type) where
  id : String
  is_critical : Bool
  value : List Nat ⊕ α
  ext_type : Option String
deriving DecidableEq

/-- `Extension._extensionDecoders`, projected to OID → extension-kind tag; the
per-OID ASN.1 schema and parse function are modelled by the `decodeParse`
oracle argument of `Extension.init`. -/
def Extension.extensionDecoders : List (String × String) :=
  [("2.5.29.17", "subjAltNameExt"), ("2.5.29.35", "authKeyIdExt"),
   ("2.5.29.14", "subjKeyIdExt"), ("2.5.29.19", "basicConstraintsExt"),
   ("2.5.29.15", "keyUsageExt"), ("2.5.29.32", "certPoliciesExt"),
   ("2.5.29.31", "crlDistPointsExt"), ("1.3.6.1.5.5.7.1.3", "statemetsExt"),
   ("1.3.6.1.5.5.7.1.1", "authInfoAccessExt"), ("2.5.29.37", "extKeyUsageExt"),
   ("2.5.29.36", "policyConstraintsExt"), ("2.5.29.30", "nameConstraintsExt"),
   ("2.16.840.1.113730.1.1", "netscapeCertTypeExt"),
   ("1.2.840.113635.100.6.1.4", "appleSubmissionCertificateExt"),
   ("1.2.840.113635.100.6.1.2", "appleDevelopmentCertificateExt"),
   ("1.2.840.113635.100.6.1.12", "macApplicationSoftwareDevelopmentSigningExt"),
   ("1.2.840.113635.100.6.1.7", "macApplicationSoftwareSubmissionSigningExt")]

/-- `Extension._extensionDecoders.get(self.id)`. -/
def Extension.decoderFor (oid : String) : Option String :=
  (Extension.extensionDecoders.find? (fun p => p.1 = oid)).map Prod.snd

/-- `Extension.__init__`. `decodeParse` models
`decoderFunction(decode(self.value, asn1Spec=decoderAsn1Spec)[0])` for the
OID's registry entry, with `.error ()` standing for a raised `PyAsn1Error`
(the exception class the `except` clause catches). The registry lookup uses
the real OID table; an unknown critical OID raises `CertificateError`, a
known OID whose decode/parse fails re-raises only when critical. -/
def Extension.init {α : Type} (decodeParse : String → List Nat → Except Unit α)
    (extension : RawExtension) : Except ExtInitError (Extension α) :=
  let id := extension.extnID
  let is_critical : Bool := extension.critical != 0
  let value : List Nat ⊕ α := Sum.inl extension.extnValue
  match Extension.decoderFor id with
  | some extType =>
    match decodeParse id extension.extnValue with
    | Except.ok v => Except.ok ⟨id, is_critical, Sum.inr v, some extType⟩
    | Except.error _ =>
      if is_critical then Except.error ExtInitError.pyAsn1Error
      else Except.ok ⟨id, is_critical, value, none⟩
  | none =>
    if is_critical then
      Except.error (ExtInitError.certificateError
        ("Critical extension OID " ++ id ++ " not understood"))
    else Except.ok ⟨id, is_critical, value, none⟩

/-- The list comprehension `[Extension(ext) for ext in extensions]`: each
entry is constructed in order and the first raised error aborts the whole
list. -/
def Certificate.buildExtensions {α : Type} (decodeParse : String → List Nat → Except Unit α) :
    List RawExtension → Except ExtInitError (List (Extension α))
  | [] => Except.ok []
  | e :: rest =>
    match Extension.init decodeParse e with
    | Except.error err => Except.error err
    | Except.ok x =>
      match Certificate.buildExtensions decodeParse rest with
      | Except.error err => Except.error err
      | Except.ok xs => Except.ok (x :: xs)

/-- `Certificate._create_extensions_list`: `None` extensions give `[]`,
otherwise the comprehension above; a raised error aborts construction of the
whole certificate. -/
def Certificate.create_extensions_list {α : Type}
    (decodeParse : String → List Nat → Except Unit α)
    (extensions : Option (List RawExtension)) : Except ExtInitError (List (Extension α)) :=
  match extensions with
  | none => Except.ok []
  | some l => Certificate.buildExtensions decodeParse l

/-- The verification-result values stored in the dict: Python `True`, `False`
or `None` (unset). -/
abbrev VerValue := Option Bool

/-- Python `d[k] = v` on the results dict (update in place, or append a new
key). -/
def dictSet : List (String × VerValue) → String → VerValue → List (String × VerValue)
  | [], k, v => [(k, v)]
  | (k0, v0) :: rest, k, v =>
    if k0 = k then (k0, v) :: rest else (k0, v0) :: dictSet rest k v

/-- Python `d.get(k)` distinguishing a missing key (`none`) from a key set to
`None` (`some none`). -/
def dictGet : List (String × VerValue) → String → Option VerValue
  | [], _ => none
  | (k0, v0) :: rest, k => if k0 = k then some v0 else dictGet rest k

/-- The `X509Certificate` state the validity-evaluation methods read:
`tbsCertificate.validity`'s two date strings, `str(tbsCertificate.issuer)` and
the serial number (the CRL-cache key), the externally populated
`verification_results`, and the `check_crl` flag. -/
structure X509Certificate where
  valid_from : String
  valid_to : String
  issuer_str : String
  serial_number : Int
  verification_results : Option (List (String × VerValue))
  check_crl : Bool
deriving DecidableEq

/-- The CRL-cache boundary: `cache.certificate_rev_date(issuer, serial)`
returning a revocation-date string or nothing. -/
abbrev CrlCache := String → Int → Option String

/-- `X509Certificate.get_revocation_date`: look up the revocation date string
in the CRL cache (a falsy result, modelled as `none` or the empty string,
means not found) and parse it; `.error` is a raised date-parse exception. -/
def X509Certificate.get_revocation_date (cache : CrlCache) (c : X509Certificate) :
    Except Unit (Option PyDateTime) :=
  match cache c.issuer_str c.serial_number with
  | none => Except.ok none
  | some s =>
    if s = "" then Except.ok none
    else
      match ValidityInterval.parse_date s with
      | none => Except.error ()
      | some d => Except.ok (some d)

/-- `X509Certificate.time_validity_at_date`: parse both stored validity
strings and test `to_date >= date >= from_date`. -/
def X509Certificate.time_validity_at_date (c : X509Certificate) (date : PyDateTime) :
    Except Unit Bool :=
  match ValidityInterval.parse_date c.valid_from with
  | none => Except.error ()
  | some from_date =>
    match ValidityInterval.parse_date c.valid_to with
    | none => Except.error ()
    | some to_date => Except.ok (PyDateTime.ge to_date date && PyDateTime.ge date from_date)

/-- `X509Certificate.crl_validity_at_date`: `True` when no revocation date is
found, otherwise `False` iff `date >= rev_date`. -/
def X509Certificate.crl_validity_at_date (cache : CrlCache) (c : X509Certificate)
    (date : PyDateTime) : Except Unit Bool :=
  match X509Certificate.get_revocation_date cache c with
  | Except.error e => Except.error e
  | Except.ok none => Except.ok true
  | Except.ok (some rev_date) => Except.ok (!(PyDateTime.ge date rev_date))

/-- `X509Certificate.verification_results_at_date`: `None` base map gives
`None`; otherwise copy the stored map (`dict(self.verification_results)`) and
overwrite `CERT_TIME_VALIDITY_OK`, then `CERT_NOT_REVOKED` (with the CRL check
result when `check_crl`, else `None`). -/
def X509Certificate.verification_results_at_date (cache : CrlCache)
    (c : X509Certificate) (date : PyDateTime) :
    Except Unit (Option (List (String × VerValue))) :=
  match c.verification_results with
  | none => Except.ok none
  | some base =>
    match X509Certificate.time_validity_at_date c date with
    | Except.error e => Except.error e
    | Except.ok tv =>
      let results := dictSet base "CERT_TIME_VALIDITY_OK" (some tv)
      if c.check_crl then
        match X509Certificate.crl_validity_at_date cache c date with
        | Except.error e => Except.error e
        | Except.ok cv => Except.ok (some (dictSet results "CERT_NOT_REVOKED" (some cv)))
      else Except.ok (some (dictSet results "CERT_NOT_REVOKED" none))

/-- The loop of `_evaluate_verification_results` over the dict items: a truthy
value passes, a `None` under `CERT_NOT_REVOKED` passes only with
`ignore_missing_crl_check`, anything else returns `False`. -/
def evaluateEntries : List (String × VerValue) → Bool → Bool
  | [], _ => true
  | (key, value) :: rest, ignore =>
    if value = some true then evaluateEntries rest ignore
    else if ignore = true ∧ key = "CERT_NOT_REVOKED" ∧ value = none then
      evaluateEntries rest ignore
    else false

/-- `X509Certificate._evaluate_verification_results`: an absent map evaluates
to `False`, otherwise the item loop above. -/
def X509Certificate.evaluate_verification_results
    (verification_results : Option (List (String × VerValue))) (ignore : Bool) : Bool :=
  match verification_results with
  | none => false
  | some m => evaluateEntries m ignore

/-- `X509Certificate.valid_at_date`: evaluate the recomputed map. The method
only builds a fresh copy of the stored dict and never assigns to `self`, so
the post-call certificate state is returned unchanged alongside the result. -/
def X509Certificate.valid_at_date (cache : CrlCache) (c : X509Certificate)
    (date : PyDateTime) (ignore : Bool) : Except Unit (Bool × X509Certificate) :=
  match X509Certificate.verification_results_at_date cache c date with
  | Except.error e => Except.error e
  | Except.ok vr => Except.ok (X509Certificate.evaluate_verification_results vr ignore, c)

deriving instance DecidableEq for Except

/-- Concrete certificate fixture for the time-validity boundary checks. -/
def certC6 : X509Certificate :=
  ⟨"20100105120000Z", "20100115120000Z", "CN=C6", 1, none, true⟩

/-- A CRL cache with no entry for any certificate. -/
def cacheEmpty : CrlCache := fun _ _ => none

/-- Concrete certificate fixture with CRL checking enabled and one
pre-populated verification result. -/
def certC3 : X509Certificate :=
  ⟨"20100101000000Z", "20301231235959Z", "CN=Test CA", 7,
   some [("SIGNATURE_OK", some true)], true⟩

/-- A query date inside `certC3`'s validity window. -/
def dateC3 : PyDateTime := ⟨2015, 6, 1, 0, 0, 0⟩

/-- Concrete certificate fixture with CRL checking disabled. -/
def certC10 : X509Certificate :=
  ⟨"20100101000000Z", "20301231235959Z", "CN=Frame CA", 2,
   some [("CHAIN_OK", some true)], false⟩

/-- The code-point comparison is total. -/
theorem pyCharsLe_total : ∀ as bs : List Char,
    pyCharsLe as bs = true ∨ pyCharsLe bs as = true := by
  intro as
  induction as with
  | nil => intro bs; left; rfl
  | cons a as ih =>
    intro bs
    cases bs with
    | nil => right; rfl
    | cons b bs =>
      by_cases h1 : a.toNat < b.toNat
      · left; simp [pyCharsLe, h1]
      · by_cases h2 : b.toNat < a.toNat
        · right; simp [pyCharsLe, h2]
        · rcases ih bs with h | h
          · left; simp [pyCharsLe, h1, h2, h]
          · right; simp [pyCharsLe, h1, h2, h]

/-- The code-point comparison is transitive. -/
theorem pyCharsLe_trans : ∀ as bs cs : List Char, pyCharsLe as bs = true →
    pyCharsLe bs cs = true → pyCharsLe as cs = true := by
  intro as
  induction as with
  | nil => intro bs cs h1 h2; rfl
  | cons a as ih =>
    intro bs cs h1 h2
    cases bs with
    | nil => exact absurd h1 (by simp [pyCharsLe])
    | cons b bs =>
      cases cs with
      | nil => exact absurd h2 (by simp [pyCharsLe])
      | cons c cs =>
        simp only [pyCharsLe] at h1 h2 ⊢
        by_cases hab : a.toNat < b.toNat
        · have hbc : b.toNat ≤ c.toNat := by
            by_cases h3 : b.toNat < c.toNat
            · omega
            · by_cases h4 : c.toNat < b.toNat
              · simp [h3, h4] at h2
              · omega
          simp [show a.toNat < c.toNat by omega]
        · by_cases hba : b.toNat < a.toNat
          · simp [hab, hba] at h1
          · simp only [hab, hba, if_false] at h1
            by_cases hbc : b.toNat < c.toNat
            · simp [show a.toNat < c.toNat by omega]
            · by_cases hcb : c.toNat < b.toNat
              · simp [hbc, hcb] at h2
              · simp only [hbc, hcb, if_false] at h2
                simp [show ¬ a.toNat < c.toNat by omega, show ¬ c.toNat < a.toNat by omega,
                  ih bs cs h1 h2]

/-- The code-point comparison is antisymmetric. -/
theorem pyCharsLe_antisymm : ∀ as bs : List Char, pyCharsLe as bs = true →
    pyCharsLe bs as = true → as = bs := by
  intro as
  induction as with
  | nil =>
    intro bs h1 h2
    cases bs with
    | nil => rfl
    | cons b bs => exact absurd h2 (by simp [pyCharsLe])
  | cons a as ih =>
    intro bs h1 h2
    cases bs with
    | nil => exact absurd h1 (by simp [pyCharsLe])
    | cons b bs =>
      simp only [pyCharsLe] at h1 h2
      by_cases hab : a.toNat < b.toNat
      · simp [hab, show ¬ b.toNat < a.toNat by omega] at h2
      · by_cases hba : b.toNat < a.toNat
        · simp [hab, hba] at h1
        · simp only [hab, hba, if_false] at h1 h2
          have hn : a.toNat = b.toNat := by omega
          have hc : a = b := Char.ext (UInt32.ext hn)
          simp [hc, ih bs h1 h2]

/-- Sorting is invariant under permutation of the input. -/
theorem pySorted_eq_of_perm {l1 l2 : List String} (h : l1.Perm l2) :
    pySorted l1 = pySorted l2 := by
  haveI : IsTotal String (fun a b => pyStrLe a b = true) :=
    ⟨fun a b => pyCharsLe_total a.data b.data⟩
  haveI : IsTrans String (fun a b => pyStrLe a b = true) :=
    ⟨fun a b c => pyCharsLe_trans a.data b.data c.data⟩
  haveI : IsAntisymm String (fun a b => pyStrLe a b = true) :=
    ⟨fun a b h1 h2 => by
      have h3 := pyCharsLe_antisymm a.data b.data h1 h2
      cases a; cases b; exact congrArg String.mk h3⟩
  exact List.eq_of_perm_of_sorted
    ((List.perm_insertionSort _ l1).trans (h.trans (List.perm_insertionSort _ l2).symm))
    (List.sorted_insertionSort _ l1) (List.sorted_insertionSort _ l2)

/-- Values stored under a key after one `addAttr` step. -/
theorem Name.lookupValues_addAttr (attrs : List (String × List String)) (t v k : String) :
    Name.lookupValues (Name.addAttr attrs t v) k =
      Name.lookupValues attrs k ++ (if t = k then [v] else []) := by
  induction attrs with
  | nil =>
    by_cases h : t = k <;> simp [Name.addAttr, Name.lookupValues, h]
  | cons p rest ih =>
    obtain ⟨k0, vs⟩ := p
    by_cases h : k0 = t
    · subst h
      by_cases h2 : k0 = k <;> simp [Name.addAttr, Name.lookupValues, h2]
    · by_cases h2 : k0 = k
      · have ht : ¬ t = k := fun he => h (h2.trans he.symm)
        have htk : ¬ k = t := fun he => ht he.symm
        simp [Name.addAttr, Name.lookupValues, h, h2, ht, htk]
      · simp [Name.addAttr, Name.lookupValues, h, h2, ih]

/-- The values stored under a key by the `Name.__init__` loop are exactly the
input values whose mapped type equals that key, in input order. -/
theorem Name.lookupValues_foldl (l : List (String × String))
    (acc : List (String × List String)) (k : String) :
    Name.lookupValues
        (l.foldl (fun attrs attr => Name.addAttr attrs (Name.mapType attr.1) attr.2) acc) k =
      Name.lookupValues acc k ++ (l.filter (fun p => Name.mapType p.1 = k)).map Prod.snd := by
  induction l generalizing acc with
  | nil => simp
  | cons a l ih =>
    simp only [List.foldl_cons, ih, Name.lookupValues_addAttr, List.filter_cons]
    by_cases h : Name.mapType a.1 = k <;> simp [h, List.append_assoc]

/-- Keys after one `addAttr` step. -/
theorem Name.keys_addAttr (attrs : List (String × List String)) (t v : String) :
    (Name.addAttr attrs t v).map Prod.fst =
      if t ∈ attrs.map Prod.fst then attrs.map Prod.fst else attrs.map Prod.fst ++ [t] := by
  induction attrs with
  | nil => simp [Name.addAttr]
  | cons p rest ih =>
    obtain ⟨k0, vs⟩ := p
    by_cases h : k0 = t
    · subst h
      simp [Name.addAttr]
    · have ht : ¬ t = k0 := fun he => h he.symm
      simp only [Name.addAttr, if_neg h, List.map_cons, ih, List.mem_cons]
      by_cases h2 : t ∈ List.map Prod.fst rest
      · simp [h2, ht]
      · simp [h2, ht]

/-- Key membership after one `addAttr` step. -/
theorem Name.mem_keys_addAttr (attrs : List (String × List String)) (t v k : String) :
    k ∈ (Name.addAttr attrs t v).map Prod.fst ↔ k ∈ attrs.map Prod.fst ∨ k = t := by
  rw [Name.keys_addAttr]
  split_ifs with h
  · exact ⟨Or.inl, fun hk => hk.elim id (fun he => he ▸ h)⟩
  · simp

/-- `addAttr` preserves key uniqueness. -/
theorem Name.nodup_keys_addAttr (attrs : List (String × List String)) (t v : String)
    (h : (attrs.map Prod.fst).Nodup) : ((Name.addAttr attrs t v).map Prod.fst).Nodup := by
  rw [Name.keys_addAttr]
  split_ifs with hmem
  · exact h
  · simp [List.nodup_append, h, hmem]

/-- A key occurs in the built dict iff some input pair maps to it. -/
theorem Name.keys_foldl_mem (l : List (String × String))
    (acc : List (String × List String)) (k : String) :
    (k ∈ (l.foldl (fun attrs attr => Name.addAttr attrs (Name.mapType attr.1) attr.2) acc).map
      Prod.fst) ↔ k ∈ acc.map Prod.fst ∨ k ∈ l.map (fun p => Name.mapType p.1) := by
  induction l generalizing acc with
  | nil => simp
  | cons a l ih =>
    simp only [List.foldl_cons, ih, Name.mem_keys_addAttr, List.map_cons, List.mem_cons]
    tauto

/-- The built dict has unique keys. -/
theorem Name.keys_foldl_nodup (l : List (String × String))
    (acc : List (String × List String)) (h : (acc.map Prod.fst).Nodup) :
    ((l.foldl (fun attrs attr => Name.addAttr attrs (Name.mapType attr.1) attr.2) acc).map
      Prod.fst).Nodup := by
  induction l generalizing acc with
  | nil => exact h
  | cons a l ih => exact ih _ (Name.nodup_keys_addAttr _ _ _ h)

/-- `dictGet` after `dictSet` reads back the written key and leaves every
other key unchanged. -/
theorem dictGet_dictSet (l : List (String × VerValue)) (k k2 : String) (v : VerValue) :
    dictGet (dictSet l k v) k2 = if k = k2 then some v else dictGet l k2 := by
  induction l with
  | nil => simp [dictSet, dictGet]
  | cons p rest ih =>
    obtain ⟨k0, v0⟩ := p
    by_cases h : k0 = k
    · subst h
      simp only [dictSet, if_pos rfl, dictGet]
      split_ifs <;> simp_all
    · simp only [dictSet, if_neg h, dictGet]
      split_ifs <;> simp_all

/-- Claim C1: for a decoded extension whose OID is absent from the
extension-decoder registry, `Extension.__init__` raises `CertificateError`
when `is_critical` is true, and succeeds when `is_critical` is false with
`value` left as the raw `extnValue` bytes and `ext_type` unset. -/
theorem extension_unknown_oid_spec {α : Type} (decodeParse : String → List Nat → Except Unit α)
    (e : RawExtension) (hreg : Extension.decoderFor e.extnID = none) :
    (e.critical ≠ 0 → Extension.init decodeParse e =
      Except.error (ExtInitError.certificateError
        ("Critical extension OID " ++ e.extnID ++ " not understood")))
    ∧ (e.critical = 0 → Extension.init decodeParse e =
      Except.ok ⟨e.extnID, false, Sum.inl e.extnValue, none⟩) := by
  constructor <;> intro hc <;> simp [Extension.init, hreg, hc]

/-- Witness for C1 at the unregistered OID `1.2.3.4`. -/
theorem extension_unknown_oid_spec_witness :
    Extension.init (fun _ _ => (Except.error () : Except Unit Nat)) ⟨"1.2.3.4", 1, [3, 2, 1]⟩ =
      Except.error (ExtInitError.certificateError
        ("Critical extension OID " ++ "1.2.3.4" ++ " not understood"))
    ∧ Extension.init (fun _ _ => (Except.error () : Except Unit Nat)) ⟨"1.2.3.4", 0, [3, 2, 1]⟩ =
      Except.ok ⟨"1.2.3.4", false, Sum.inl [3, 2, 1], none⟩ :=
  ⟨(extension_unknown_oid_spec _ ⟨"1.2.3.4", 1, [3, 2, 1]⟩ (by decide)).1 (by decide),
   (extension_unknown_oid_spec _ ⟨"1.2.3.4", 0, [3, 2, 1]⟩ (by decide)).2 rfl⟩

/-- Claim C2: for a decoded extension whose OID is in the registry but whose
payload decode/parse raises `PyAsn1Error`, `Extension.__init__` re-raises when
`is_critical` is true (so building the certificate's extension list fails),
and when non-critical swallows the failure, leaving `value` as the raw bytes
and `ext_type` unset. -/
theorem extension_known_oid_parse_failure_spec {α : Type}
    (decodeParse : String → List Nat → Except Unit α) (e : RawExtension) (t : String)
    (hreg : Extension.decoderFor e.extnID = some t)
    (hfail : decodeParse e.extnID e.extnValue = Except.error ()) :
    (e.critical ≠ 0 → Extension.init decodeParse e = Except.error ExtInitError.pyAsn1Error)
    ∧ (e.critical = 0 → Extension.init decodeParse e =
        Except.ok ⟨e.extnID, false, Sum.inl e.extnValue, none⟩)
    ∧ (∀ rest : List RawExtension, e.critical ≠ 0 →
        Certificate.create_extensions_list decodeParse (some (e :: rest)) =
          Except.error ExtInitError.pyAsn1Error) := by
  refine ⟨?_, ?_, ?_⟩
  · intro hc
    simp [Extension.init, hreg, hfail, hc]
  · intro hc
    simp [Extension.init, hreg, hfail, hc]
  · intro rest hc
    have h1 : Extension.init decodeParse e = Except.error ExtInitError.pyAsn1Error := by
      simp [Extension.init, hreg, hfail, hc]
    simp [Certificate.create_extensions_list, Certificate.buildExtensions, h1]

/-- Witness for C2 at the registered KeyUsage OID `2.5.29.15` with a failing
payload parse. -/
theorem extension_known_oid_parse_failure_spec_witness :
    Extension.init (fun _ _ => (Except.error () : Except Unit Nat)) ⟨"2.5.29.15", 1, [7]⟩ =
      Except.error ExtInitError.pyAsn1Error
    ∧ Extension.init (fun _ _ => (Except.error () : Except Unit Nat)) ⟨"2.5.29.15", 0, [7]⟩ =
      Except.ok ⟨"2.5.29.15", false, Sum.inl [7], none⟩
    ∧ Certificate.create_extensions_list (fun _ _ => (Except.error () : Except Unit Nat))
        (some [⟨"2.5.29.15", 1, [7]⟩]) = Except.error ExtInitError.pyAsn1Error :=
  ⟨(extension_known_oid_parse_failure_spec _ ⟨"2.5.29.15", 1, [7]⟩ "keyUsageExt" (by decide)
      rfl).1 (by decide),
   (extension_known_oid_parse_failure_spec _ ⟨"2.5.29.15", 0, [7]⟩ "keyUsageExt" (by decide)
      rfl).2.1 rfl,
   (extension_known_oid_parse_failure_spec _ ⟨"2.5.29.15", 1, [7]⟩ "keyUsageExt" (by decide)
      rfl).2.2 [] (by decide)⟩

/-- Counterexample to claim C3: with `check_crl` true and the CRL cache
returning nothing for the certificate, `verification_results_at_date` does
not leave `CERT_NOT_REVOKED` unset — it sets it to `True`
(`crl_validity_at_date` returns `True` when no revocation date is found) —
and the aggregate evaluation passes without `ignore_missing_crl_check`. -/
theorem revocation_unset_counterexample :
    certC3.check_crl = true
    ∧ cacheEmpty certC3.issuer_str certC3.serial_number = none
    ∧ X509Certificate.verification_results_at_date cacheEmpty certC3 dateC3 =
        Except.ok (some [("SIGNATURE_OK", some true), ("CERT_TIME_VALIDITY_OK", some true),
          ("CERT_NOT_REVOKED", some true)])
    ∧ dictGet [("SIGNATURE_OK", some true), ("CERT_TIME_VALIDITY_OK", some true),
        ("CERT_NOT_REVOKED", some true)] "CERT_NOT_REVOKED" = some (some true)
    ∧ ¬ (dictGet [("SIGNATURE_OK", some true), ("CERT_TIME_VALIDITY_OK", some true),
        ("CERT_NOT_REVOKED", some true)] "CERT_NOT_REVOKED" = some none)
    ∧ X509Certificate.valid_at_date cacheEmpty certC3 dateC3 false = Except.ok (true, certC3) :=
  ⟨rfl, rfl, by decide, by decide, by decide, by decide⟩

/-- Claim C3 as amended: with CRL checking enabled and no revocation date
found, `CERT_NOT_REVOKED` is set to `True` (absence is treated as
not-revoked, not as unset); it is left unset (`None`) exactly when
`check_crl` is false. -/
theorem revocation_absent_sets_true (cache : CrlCache) (c : X509Certificate)
    (date : PyDateTime) (base : List (String × VerValue)) (tv : Bool)
    (hlookup : cache c.issuer_str c.serial_number = none)
    (hbase : c.verification_results = some base)
    (htv : X509Certificate.time_validity_at_date c date = Except.ok tv) :
    (c.check_crl = true →
      X509Certificate.verification_results_at_date cache c date =
        Except.ok (some (dictSet (dictSet base "CERT_TIME_VALIDITY_OK" (some tv))
          "CERT_NOT_REVOKED" (some true))))
    ∧ (c.check_crl = false →
      X509Certificate.verification_results_at_date cache c date =
        Except.ok (some (dictSet (dictSet base "CERT_TIME_VALIDITY_OK" (some tv))
          "CERT_NOT_REVOKED" none))) := by
  have hcrl : X509Certificate.crl_validity_at_date cache c date = Except.ok true := by
    simp [X509Certificate.crl_validity_at_date, X509Certificate.get_revocation_date, hlookup]
  constructor <;> intro hc <;>
    simp [X509Certificate.verification_results_at_date, hbase, htv, hc, hcrl]

/-- Witness for the amended C3 on the concrete fixture. -/
theorem revocation_absent_sets_true_witness :
    X509Certificate.verification_results_at_date cacheEmpty certC3 dateC3 =
      Except.ok (some (dictSet (dictSet [("SIGNATURE_OK", some true)]
        "CERT_TIME_VALIDITY_OK" (some true)) "CERT_NOT_REVOKED" (some true))) :=
  (revocation_absent_sets_true cacheEmpty certC3 dateC3 [("SIGNATURE_OK", some true)] true
    rfl rfl (by decide)).1 rfl

/-- Claim C4: `_evaluate_verification_results` returns `False` for an absent
map, and for a present map returns `True` iff every entry is true, except
that an unset `CERT_NOT_REVOKED` entry is accepted exactly when
`ignore_missing_crl_check` is passed. -/
theorem evaluate_verification_results_spec :
    (∀ ignore : Bool, X509Certificate.evaluate_verification_results none ignore = false)
    ∧ (∀ (m : List (String × VerValue)) (ignore : Bool),
        X509Certificate.evaluate_verification_results (some m) ignore = true ↔
          ∀ p ∈ m, p.2 = some true ∨ (ignore = true ∧ p.1 = "CERT_NOT_REVOKED" ∧ p.2 = none)) := by
  refine ⟨fun _ => rfl, ?_⟩
  intro m ignore
  simp only [X509Certificate.evaluate_verification_results]
  induction m with
  | nil => simp [evaluateEntries]
  | cons p rest ih =>
    obtain ⟨k, v⟩ := p
    by_cases h1 : v = some true
    · simp [evaluateEntries, h1, ih]
    · by_cases h2 : ignore = true ∧ k = "CERT_NOT_REVOKED" ∧ v = none
      · simp only [evaluateEntries, if_neg h1, if_pos h2]
        rw [ih]
        simp [h2]
      · simp only [evaluateEntries, if_neg h1, if_neg h2]
        constructor
        · intro habs; exact absurd habs (by simp)
        · intro hall
          rcases hall ⟨k, v⟩ (by simp) with hv | hv
          · exact absurd hv h1
          · exact absurd hv h2

/-- Witness for C4: an unset `CERT_NOT_REVOKED` passes with the ignore flag. -/
theorem evaluate_verification_results_spec_witness :
    X509Certificate.evaluate_verification_results
      (some [("CERT_NOT_REVOKED", none), ("SIG_OK", some true)]) true = true :=
  (evaluate_verification_results_spec.2 _ _).mpr (by decide)

/-- Claim C5: two RDN-sequences whose (type, value) pairs are permutations of
the same multiset produce `Name`s with identical canonical strings, rendered
as sorted `KEY=value` pairs joined by `", "`. -/
theorem name_canonical_form_spec :
    (∀ n1 n2 : List (List (String × String)), n1.flatten.Perm n2.flatten →
      Name.toStr (Name.init n1) = Name.toStr (Name.init n2))
    ∧ Name.toStr (Name.init [[("2.5.4.3", "beta"), ("2.5.4.6", "CZ")], [("2.5.4.3", "alpha")]]) =
        "C=CZ, CN=alpha, CN=beta" := by
  constructor
  · intro n1 n2 hperm
    have hnd1 : ((Name.init n1).map Prod.fst).Nodup :=
      Name.keys_foldl_nodup _ _ (by simp)
    have hnd2 : ((Name.init n2).map Prod.fst).Nodup :=
      Name.keys_foldl_nodup _ _ (by simp)
    have hkeys : ((Name.init n1).map Prod.fst).Perm ((Name.init n2).map Prod.fst) := by
      rw [List.perm_ext_iff_of_nodup hnd1 hnd2]
      intro k
      simp only [Name.init, Name.keys_foldl_mem]
      have hmem := (hperm.map (fun p => Name.mapType p.1)).mem_iff (a := k)
      simp only [hmem]
    have hsorted : pySorted ((Name.init n1).map Prod.fst) =
        pySorted ((Name.init n2).map Prod.fst) := pySorted_eq_of_perm hkeys
    unfold Name.toStr
    rw [hsorted]
    congr 1
    apply List.map_congr_left
    intro key hkey
    have hv : pySorted (Name.lookupValues (Name.init n1) key) =
        pySorted (Name.lookupValues (Name.init n2) key) := by
      simp only [Name.init, Name.lookupValues_foldl, Name.lookupValues, List.nil_append]
      exact pySorted_eq_of_perm ((hperm.filter _).map Prod.snd)
    rw [hv]
  · decide

/-- Witness for C5 on two reordered RDN-sequences over the same pairs. -/
theorem name_canonical_form_spec_witness :
    Name.toStr (Name.init [[("2.5.4.3", "b"), ("2.5.4.6", "a")]]) =
      Name.toStr (Name.init [[("2.5.4.6", "a")], [("2.5.4.3", "b")]]) :=
  name_canonical_form_spec.1 _ _ (by decide)

/-- Claim C6: `time_validity_at_date` is true iff
`valid_from ≤ date ≤ valid_to` with both endpoints inclusive; on the concrete
fixture, queries exactly at the endpoints are true and one second outside is
false. -/
theorem time_validity_spec :
    (∀ (c : X509Certificate) (date f t : PyDateTime),
      ValidityInterval.parse_date c.valid_from = some f →
      ValidityInterval.parse_date c.valid_to = some t →
      (X509Certificate.time_validity_at_date c date = Except.ok true ↔
        (PyDateTime.le f date = true ∧ PyDateTime.le date t = true)))
    ∧ X509Certificate.time_validity_at_date certC6 ⟨2010, 1, 5, 12, 0, 0⟩ = Except.ok true
    ∧ X509Certificate.time_validity_at_date certC6 ⟨2010, 1, 15, 12, 0, 0⟩ = Except.ok true
    ∧ X509Certificate.time_validity_at_date certC6 ⟨2010, 1, 5, 11, 59, 59⟩ = Except.ok false
    ∧ X509Certificate.time_validity_at_date certC6 ⟨2010, 1, 15, 12, 0, 1⟩ = Except.ok false := by
  refine ⟨?_, by decide, by decide, by decide, by decide⟩
  intro c date f t hf ht
  simp [X509Certificate.time_validity_at_date, hf, ht, PyDateTime.ge,
    Bool.and_eq_true, and_comm]

/-- Witness for C6 at a date strictly inside the validity window. -/
theorem time_validity_spec_witness :
    X509Certificate.time_validity_at_date certC6 ⟨2010, 1, 10, 0, 0, 0⟩ = Except.ok true :=
  (time_validity_spec.1 certC6 ⟨2010, 1, 10, 0, 0, 0⟩ ⟨2010, 1, 5, 12, 0, 0⟩
    ⟨2010, 1, 15, 12, 0, 0⟩ (by decide) (by decide)).mpr (by decide)

/-- Claim C7: `_getGeneralizedTime` returns the `generalTime` variant
verbatim and expands the `utcTime` two-digit year with `"19"` when ≥ 50 and
`"20"` otherwise; `"500101120000Z"` yields year 1950 and `"491231235959Z"`
yields year 2049. -/
theorem getGeneralizedTime_spec :
    (∀ v, ValidityInterval.getGeneralizedTime (TimeComponent.generalTime v) = some v)
    ∧ (∀ v (n : Int), pyInt (pySlice v 0 2) = some n →
        (50 ≤ n →
          ValidityInterval.getGeneralizedTime (TimeComponent.utcTime v) = some ("19" ++ v))
        ∧ (n < 50 →
          ValidityInterval.getGeneralizedTime (TimeComponent.utcTime v) = some ("20" ++ v)))
    ∧ ValidityInterval.getGeneralizedTime (TimeComponent.utcTime "500101120000Z") =
        some "19500101120000Z"
    ∧ ((ValidityInterval.getGeneralizedTime (TimeComponent.utcTime "500101120000Z")).bind
        ValidityInterval.parse_date).map PyDateTime.year = some 1950
    ∧ ValidityInterval.getGeneralizedTime (TimeComponent.utcTime "491231235959Z") =
        some "20491231235959Z"
    ∧ ((ValidityInterval.getGeneralizedTime (TimeComponent.utcTime "491231235959Z")).bind
        ValidityInterval.parse_date).map PyDateTime.year = some 2049 := by
  refine ⟨fun v => rfl, ?_, by decide, by decide, by decide, by decide⟩
  intro v n h
  constructor
  · intro h2
    simp [ValidityInterval.getGeneralizedTime, h, h2]
  · intro h2
    have h3 : ¬ (50 ≤ n) := by omega
    simp [ValidityInterval.getGeneralizedTime, h, h3]

/-- Witness for C7 on the two-digit years 99 and 01. -/
theorem getGeneralizedTime_spec_witness :
    ValidityInterval.getGeneralizedTime (TimeComponent.utcTime "990101000000Z") =
      some ("19" ++ "990101000000Z")
    ∧ ValidityInterval.getGeneralizedTime (TimeComponent.utcTime "010101000000Z") =
      some ("20" ++ "010101000000Z") :=
  ⟨(getGeneralizedTime_spec.2.1 "990101000000Z" 99 (by decide)).1 (by norm_num),
   (getGeneralizedTime_spec.2.1 "010101000000Z" 1 (by decide)).2 (by norm_num)⟩

/-- Claim C8: `parse_date` clamps a seconds field greater than 59 to 59
instead of rejecting it, and an absent or malformed seconds field yields
second 0; a 12-character `YYYYMMDDHHMM` string parses with second 0. -/
theorem parse_date_seconds_spec (s : String) (y mo d h mi : Int)
    (hy : pyInt (pySlice s 0 4) = some y) (hmo : pyInt (pySlice s 4 6) = some mo)
    (hd : pyInt (pySlice s 6 8) = some d) (hh : pyInt (pySlice s 8 10) = some h)
    (hmi : pyInt (pySlice s 10 12) = some mi) :
    (∀ sec : Int, pyInt (pySlice s 12 14) = some sec → 59 < sec →
        ValidityInterval.parse_date s = datetimeNew y mo d h mi 59)
    ∧ (pyInt (pySlice s 12 14) = none →
        ValidityInterval.parse_date s = datetimeNew y mo d h mi 0)
    ∧ ValidityInterval.parse_date "20100101123061" = some ⟨2010, 1, 1, 12, 30, 59⟩
    ∧ ValidityInterval.parse_date "201001011230" = some ⟨2010, 1, 1, 12, 30, 0⟩ := by
  refine ⟨?_, ?_, by decide, by decide⟩
  · intro sec hsec hgt
    simp [ValidityInterval.parse_date, hy, hmo, hd, hh, hmi, hsec, hgt]
  · intro hsec
    simp [ValidityInterval.parse_date, hy, hmo, hd, hh, hmi, hsec]

/-- Witness for C8 on a date string with seconds field 61. -/
theorem parse_date_seconds_spec_witness :
    ValidityInterval.parse_date "20100101123061" = datetimeNew 2010 1 1 12 30 59 :=
  (parse_date_seconds_spec "20100101123061" 2010 1 1 12 30
    (by decide) (by decide) (by decide) (by decide) (by decide)).1 61 (by decide) (by decide)

/-- Claim C9: `KeyUsageExt.__init__` sets each named flag iff the bit at its
fixed position is set, and a bit string shorter than the flag set leaves all
flags at missing positions false; `[1, 0, 1]` gives digitalSignature and
keyEncipherment only. -/
theorem keyUsage_bits_spec :
    (∀ bits : List Nat, KeyUsageExt.init bits =
      ⟨bits.getD 0 0 != 0, bits.getD 1 0 != 0, bits.getD 2 0 != 0, bits.getD 3 0 != 0,
       bits.getD 4 0 != 0, bits.getD 5 0 != 0, bits.getD 6 0 != 0, bits.getD 7 0 != 0,
       bits.getD 8 0 != 0⟩)
    ∧ KeyUsageExt.init [1, 0, 1] =
      ⟨true, false, true, false, false, false, false, false, false⟩ := by
  refine ⟨?_, by decide⟩
  intro bits
  rcases bits with _ | ⟨b0, _ | ⟨b1, _ | ⟨b2, _ | ⟨b3, _ | ⟨b4, _ | ⟨b5, _ | ⟨b6, _ |
    ⟨b7, _ | ⟨b8, rest⟩⟩⟩⟩⟩⟩⟩⟩⟩ <;>
    simp [KeyUsageExt.init, KeyUsageExt.start, List.getD, List.get?]

/-- Claim C10: with a stored base map, `verification_results_at_date` returns
a map that recomputes only the `CERT_TIME_VALIDITY_OK` and `CERT_NOT_REVOKED`
keys and agrees with the stored map everywhere else, and `valid_at_date`
leaves the certificate state unchanged, so repeated evaluations start from
the same stored base map. -/
theorem verification_results_frame (cache : CrlCache) (c : X509Certificate)
    (date : PyDateTime) (base m : List (String × VerValue)) (ignore : Bool)
    (hbase : c.verification_results = some base)
    (hm : X509Certificate.verification_results_at_date cache c date = Except.ok (some m)) :
    (∀ k, k ≠ "CERT_TIME_VALIDITY_OK" → k ≠ "CERT_NOT_REVOKED" →
      dictGet m k = dictGet base k)
    ∧ (∃ tv, X509Certificate.time_validity_at_date c date = Except.ok tv ∧
        dictGet m "CERT_TIME_VALIDITY_OK" = some (some tv))
    ∧ (c.check_crl = false → dictGet m "CERT_NOT_REVOKED" = some none)
    ∧ X509Certificate.valid_at_date cache c date ignore =
        Except.ok (X509Certificate.evaluate_verification_results (some m) ignore, c) := by
  have hval : X509Certificate.valid_at_date cache c date ignore =
      Except.ok (X509Certificate.evaluate_verification_results (some m) ignore, c) := by
    simp [X509Certificate.valid_at_date, hm]
  simp only [X509Certificate.verification_results_at_date, hbase] at hm
  cases htv : X509Certificate.time_validity_at_date c date with
  | error err => simp [htv] at hm
  | ok tv =>
    simp only [htv] at hm
    by_cases hcrl : c.check_crl = true
    · rw [if_pos hcrl] at hm
      cases hcv : X509Certificate.crl_validity_at_date cache c date with
      | error err => simp [hcv] at hm
      | ok cv =>
        simp only [hcv] at hm
        simp only [Except.ok.injEq, Option.some.injEq] at hm
        subst hm
        refine ⟨?_, ⟨tv, rfl, ?_⟩, ?_, hval⟩
        · intro k hk1 hk2
          rw [dictGet_dictSet, if_neg (fun h => hk2 h.symm),
            dictGet_dictSet, if_neg (fun h => hk1 h.symm)]
        · rw [dictGet_dictSet, if_neg (by decide), dictGet_dictSet, if_pos rfl]
        · intro h; rw [h] at hcrl; exact absurd hcrl (by simp)
    · rw [if_neg hcrl] at hm
      simp only [Except.ok.injEq, Option.some.injEq] at hm
      subst hm
      refine ⟨?_, ⟨tv, rfl, ?_⟩, ?_, hval⟩
      · intro k hk1 hk2
        rw [dictGet_dictSet, if_neg (fun h => hk2 h.symm),
          dictGet_dictSet, if_neg (fun h => hk1 h.symm)]
      · rw [dictGet_dictSet, if_neg (by decide), dictGet_dictSet, if_pos rfl]
      · intro _
        rw [dictGet_dictSet, if_pos rfl]

/-- Witness for C10 on the concrete fixture with CRL checking disabled: the
untouched `CHAIN_OK` entry reads back from the recomputed map unchanged. -/
theorem verification_results_frame_witness :
    dictGet (dictSet (dictSet [("CHAIN_OK", some true)] "CERT_TIME_VALIDITY_OK" (some true))
      "CERT_NOT_REVOKED" none) "CHAIN_OK" = dictGet [("CHAIN_OK", some true)] "CHAIN_OK" :=
  (verification_results_frame cacheEmpty certC10 dateC3 [("CHAIN_OK", some true)]
    (dictSet (dictSet [("CHAIN_OK", some true)] "CERT_TIME_VALIDITY_OK" (some true))
      "CERT_NOT_REVOKED" none) false rfl (by decide)).1 "CHAIN_OK" (by decide) (by decide)

end X509
